import Mathlib

set_option maxRecDepth 200000

/-!
# Fact Resolution & Validation Engine — verification development

A shallow embedding of the genealogy research tool's fact-resolution core:
the confidence scorer and threshold router (`specs/confidence-scoring.md`),
the SSOT write-validation pipeline (`validate_write_operation`,
`detect_conflicts`, `detect_additions` from the SSOT validation spec), and
the commit engine's interaction with the external Gramps Web record store.

Conventions of the embedding:
* Python floats are modelled as `ℚ`; all constants in the source are exact
  decimals.  `round(x, 2)` is modelled with floor-based half-up rounding
  (`round2`); the source's claims never hinge on behaviour at exact ties.
* Python truthiness on optional strings/values is modelled by `Option`
  (`None`/empty ↦ `none`).
* Calendar dates are modelled as integer day numbers, so that
  `(d2 - d1).days` is plain integer subtraction.
* Helper predicates that the repository references but never implements
  (`has_title`, `dates_match_within_tolerance`, `is_clear_best_match`, …)
  are modelled from the specification's words; each such definition carries
  a doc comment starting `Modelled from the spec:`.
-/

namespace Genealogy

/-- Resolution router outcome (`Action` in `determine_action`,
section 5.1 of the confidence-scoring spec). -/
inductive Action where
  | AUTO_STORE
  | REVIEW_REQUIRED
  | REJECT
deriving DecidableEq, Repr

/-- Write-operation category (`OperationType` in `validate_write_operation`;
`match_status` strings in `determine_action`). -/
inductive OperationType where
  | NEW_ENTITY
  | NON_CONFLICTING_ADDITION
  | CONFLICTING_UPDATE
  | AMBIGUOUS_MATCH
  | REDUNDANT
deriving DecidableEq, Repr

/-- Conflict severity levels (section 2.3 of the SSOT validation spec). -/
inductive ConflictSeverity where
  | CRITICAL
  | HIGH
  | MEDIUM
  | LOW
deriving DecidableEq, Repr

/-- Gender codes `'M'`/`'F'`/`'U'` used by `detect_conflicts`. -/
inductive Gender where
  | M
  | F
  | U
deriving DecidableEq, Repr

/-- The tunable settings read by the router (`config_settings` rows in
`database/schema.sql` and section 6 of the SSOT validation spec). -/
structure Config where
  confidence_threshold_auto_store : ℚ
  confidence_threshold_review : ℚ
  always_review : Bool

/-- The default values inserted by `database/schema.sql` into
`config_settings`: auto-store 0.85, review 0.60, always_review false. -/
def defaultConfig : Config :=
  { confidence_threshold_auto_store := 85/100
    confidence_threshold_review := 60/100
    always_review := false }

/-- Function `determine_action` from section 5.1 of `specs/confidence-scoring.md`:
the threshold decision matrix of the resolution router. -/
def determine_action (cfg : Config) (confidence_score : ℚ)
    (match_status : OperationType) : Action :=
  -- Check if user wants to review everything
  if cfg.always_review then Action.REVIEW_REQUIRED
  -- High confidence
  else if confidence_score ≥ cfg.confidence_threshold_auto_store then
    if match_status = OperationType.NEW_ENTITY ∨
       match_status = OperationType.NON_CONFLICTING_ADDITION then
      Action.AUTO_STORE
    else
      Action.REVIEW_REQUIRED
  -- Medium confidence
  else if confidence_score ≥ cfg.confidence_threshold_review then
    Action.REVIEW_REQUIRED
  -- Low confidence
  else
    Action.REJECT

/-! ## String helpers

Structurally recursive character-list functions modelling the Python string
operations used by the scoring pseudocode (`in` substring tests, `.lower()`,
`.split()`, `.strip()`).  They avoid the well-founded recursion of core
string functions so that concrete inputs evaluate inside the kernel. -/

/-- Lowercase every character of a string (Python `str.lower()` for the
ASCII texts the source manipulates). -/
def strLower (s : String) : String := ⟨s.data.map Char.toLower⟩

/-- Whether the first character list is a prefix of the second. -/
def seqStartsWith : List Char → List Char → Bool
  | [], _ => true
  | _ :: _, [] => false
  | a :: as, b :: bs => a == b && seqStartsWith as bs

/-- Whether the first character list occurs contiguously in the second. -/
def seqContains (needle : List Char) : List Char → Bool
  | [] => seqStartsWith needle []
  | b :: bs => seqStartsWith needle (b :: bs) || seqContains needle bs

/-- Substring containment, Python's `needle in hay`. -/
def strContains (hay needle : String) : Bool := seqContains needle.data hay.data

/-- Accumulator pass splitting a character list on spaces. -/
def wordsAux : List Char → List Char → List String
  | [], cur => if cur.isEmpty then [] else [⟨cur.reverse⟩]
  | c :: cs, cur =>
    if c = ' ' then
      (if cur.isEmpty then wordsAux cs [] else ⟨cur.reverse⟩ :: wordsAux cs [])
    else wordsAux cs (c :: cur)

/-- Number of whitespace-separated words, Python `len(text.split())`. -/
def wordCount (s : String) : Nat := (wordsAux s.data []).length

/-- Drop leading and trailing spaces, Python `str.strip()`. -/
def trimChars (l : List Char) : List Char :=
  ((l.dropWhile (· == ' ')).reverse.dropWhile (· == ' ')).reverse

/-! ## Data model

Record types for the extracted entities and the matched Gramps Web (SSOT)
records, with exactly the fields the embedded functions read.  Python
truthiness on optional fields is modelled by `Option`. -/

/-- One extracted relationship assertion (fields read by
`score_relationship_clarity`, `detect_conflicts` and `detect_additions`). -/
structure ExtractedRelationship where
  type : String
  person2_name : String
  context : String
deriving DecidableEq, Repr

/-- An extracted person as consumed by the confidence scorer and the SSOT
validation pipeline. -/
structure ExtractedPerson where
  full_name : String
  given_names : Option String
  surname : Option String
  maiden_name : Option String
  age : Option ℤ
  birth_date : Option ℤ
  death_date : Option ℤ
  birth_date_circa : Bool
  death_date_circa : Bool
  birth_location : Option String
  death_location : Option String
  residence_location : Option String
  gender : Gender
  is_deceased_primary : Bool
  relationships : List ExtractedRelationship
  confidence_score : ℚ
  obituary_url : String
deriving Repr

/-- A relationship already present on a Gramps Web record. -/
structure GrampsRelationship where
  type : String
  person2_name : String
deriving DecidableEq, Repr

/-- The matched Gramps Web (SSOT) person record, with the attributes read
by `detect_conflicts` and `detect_additions`. -/
structure GrampsPerson where
  full_name : String
  given_names : Option String
  maiden_name : Option String
  birth_date : Option ℤ
  death_date : Option ℤ
  birth_location : Option String
  death_location : Option String
  residences : List String
  gender : Gender
  relationships : List GrampsRelationship
deriving Repr

/-- The per-person slice of the extractor (LLM) response read by
`score_llm_confidence`. -/
structure LLMResponse where
  confidence : Option ℚ
  uncertainty_factors : List String
deriving Repr

/-! ## Confidence scorer (`specs/confidence-scoring.md`, section 2) -/

/-- Modelled from the spec: `has_title` is referenced by
`score_name_clarity` but never implemented in the repository; it checks for
a title/honorific "Mr., Mrs., Dr." in the full name. -/
def has_title (full_name : String) : Bool :=
  ["Mr.", "Mrs.", "Dr."].any (fun t => strContains full_name t)

/-- Modelled from the spec: `has_nickname` is referenced by
`score_name_clarity` but never implemented in the repository; it checks for
a nickname in quotes inside the full name. -/
def has_nickname (full_name : String) : Bool :=
  full_name.data.contains '"'

/-- Modelled from the spec: `has_suffix` is referenced by
`score_name_clarity` but never implemented in the repository; it checks for
a generational suffix "Jr., Sr., III" in the full name. -/
def has_suffix (full_name : String) : Bool :=
  ["Jr.", "Sr.", "III"].any (fun t => strContains full_name t)

/-- Factor 1, `score_name_clarity` (confidence-scoring spec, section 2.2):
how explicitly the person is named. -/
def score_name_clarity (person : ExtractedPerson) : ℚ :=
  let score : ℚ := 0
  -- Full name with first and last (0.50 points)
  let score := score +
    (if person.given_names.isSome ∧ person.surname.isSome then 50/100
     else if person.surname.isSome then 30/100   -- Last name only
     else if person.given_names.isSome then 20/100  -- First name only
     else 0)
  -- Middle name or initial (0.15 points)
  let score := score +
    (match person.given_names with
     | some g => if (trimChars g.data).contains ' ' then 15/100 else 0
     | none => 0)
  -- Maiden name mentioned (0.10 points)
  let score := score + (if person.maiden_name.isSome then 10/100 else 0)
  -- Title/honorific (0.10 points)
  let score := score + (if has_title person.full_name then 10/100 else 0)
  -- Nickname in quotes (0.10 points)
  let score := score + (if has_nickname person.full_name then 10/100 else 0)
  -- Suffix (Jr., Sr., III) (0.05 points)
  let score := score + (if has_suffix person.full_name then 5/100 else 0)
  min score 1

/-- Explicit kinship terms scoring 1.0 in `score_relationship_clarity`. -/
def explicit_terms : List String :=
  ["wife", "husband", "mother", "father", "son", "daughter",
   "brother", "sister", "grandmother", "grandfather"]

/-- Moderately clear kinship terms scoring 0.70. -/
def moderate_terms : List String :=
  ["spouse", "parent", "child", "sibling", "grandparent",
   "stepfather", "stepmother", "half-brother", "half-sister"]

/-- Ambiguous kinship terms scoring 0.40. -/
def ambiguous_terms : List String :=
  ["partner", "companion", "friend", "relative", "family"]

/-- Possessive linking phrases giving the +0.20 context bonus. -/
def possessive_patterns : List String :=
  ["his wife", "her husband", "their son", "his mother"]

/-- Factor 2, `score_relationship_clarity` (confidence-scoring spec,
section 2.2): how clearly a relationship is stated. -/
def score_relationship_clarity (relationship_type : String) (context : String) : ℚ :=
  let rel_lower := strLower relationship_type
  let base_score : ℚ :=
    if explicit_terms.any (fun t => strContains rel_lower t) then 1
    else if moderate_terms.any (fun t => strContains rel_lower t) then 70/100
    else if ambiguous_terms.any (fun t => strContains rel_lower t) then 40/100
    else 20/100  -- Very unclear
  -- Bonus: context contains possessive or explicit connection (0.20 points)
  if possessive_patterns.any (fun p => strContains (strLower context) p) then
    min (base_score + 20/100) 1
  else base_score

/-- Modelled from the spec: `score_relationship_clarity_average` is called
by `calculate_confidence_score` but never implemented in the repository;
per the spec's weighted formula it averages the relationship-clarity
sub-score over the person's extracted relationships (0 when there are
none). -/
def score_relationship_clarity_average (person : ExtractedPerson) : ℚ :=
  match person.relationships with
  | [] => 0
  | rels => (rels.map (fun r => score_relationship_clarity r.type r.context)).sum
      / rels.length

/-- Factor 3, `score_date_specificity` (confidence-scoring spec,
section 2.2): how specific the dates are. -/
def score_date_specificity (person : ExtractedPerson) : ℚ :=
  let score : ℚ := 0
  -- Birth date specificity
  let score := score +
    (if person.birth_date.isSome then
      (if ¬person.birth_date_circa then 35/100 else 20/100)
     else if person.age.isSome then 15/100
     else 0)
  -- Death date specificity
  let score := score +
    (if person.death_date.isSome then
      (if ¬person.death_date_circa then 35/100 else 20/100)
     else 0)
  -- Locations add context
  let score := score + (if person.birth_location.isSome then 10/100 else 0)
  let score := score + (if person.death_location.isSome then 10/100 else 0)
  let score := score + (if person.residence_location.isSome then 10/100 else 0)
  min score 1

/-- Factor 4, `score_llm_confidence` (confidence-scoring spec,
section 2.2): the extractor-reported confidence, or a value inferred from
the number of uncertainty factors. -/
def score_llm_confidence (llm_response : LLMResponse) : ℚ :=
  match llm_response.confidence with
  | some c => c
  | none =>
    match llm_response.uncertainty_factors with
    | [] => 90/100  -- No uncertainties mentioned
    | fs => max 0 (90/100 - (fs.length : ℚ) * (15/100))

/-- Structured-section keywords counted by `score_context_quality`. -/
def structured_keywords : List String :=
  ["survived by", "preceded by", "born", "died", "married"]

/-- Detail keywords counted by `score_context_quality`. -/
def detail_keywords : List String :=
  ["graduated", "served", "worked", "retired", "enjoyed", "loved"]

/-- Factor 5, `score_context_quality` (confidence-scoring spec,
section 2.2): quality of the obituary context around the person. -/
def score_context_quality (obituary_text : String) (person : ExtractedPerson) : ℚ :=
  let score : ℚ := 0
  -- Length of obituary (more context = higher confidence)
  let word_count := wordCount obituary_text
  let score := score +
    (if word_count > 500 then 30/100
     else if word_count > 300 then 20/100
     else if word_count > 150 then 10/100
     else 0)
  -- Number of relationships mentioned
  let relationship_count := person.relationships.length
  let score := score +
    (if relationship_count ≥ 3 then 30/100
     else if relationship_count ≥ 2 then 20/100
     else if relationship_count ≥ 1 then 10/100
     else 0)
  -- Structured sections (Born:, Survived by:, Preceded by:)
  let structCount :=
    (structured_keywords.filter
      (fun kw => strContains (strLower obituary_text) kw)).length
  let score := score +
    (if structCount ≥ 3 then 20/100
     else if structCount ≥ 2 then 10/100
     else 0)
  -- Multiple specific details (education, career, military, hobbies)
  let detailCount :=
    (detail_keywords.filter
      (fun kw => strContains (strLower obituary_text) kw)).length
  let score := score + (if detailCount ≥ 2 then 20/100 else 0)
  min score 1

/-- Penalty logic, `apply_penalties` (confidence-scoring spec,
section 3.2): sequential deductions with a single final floor at 0.0. -/
def apply_penalties (score : ℚ) (person : ExtractedPerson) : ℚ :=
  -- Missing critical info
  let score := score -
    (if person.surname.isNone ∧ ¬person.is_deceased_primary then 20/100 else 0)
  -- No dates and no age
  let score := score -
    (if person.birth_date.isNone ∧ person.death_date.isNone ∧ person.age.isNone
     then 20/100 else 0)
  -- Conflicting data (dates don't make sense)
  let score := score -
    (match person.birth_date, person.death_date with
     | some b, some d => if d < b then 30/100 else 0
     | _, _ => 0)
  let score := score -
    (match person.age, person.birth_date, person.death_date with
     | some a, some b, some d =>
       -- calculated_age = (death_date - birth_date).days // 365
       if 2 < |Int.fdiv (d - b) 365 - a| then 20/100 else 0
     | _, _, _ => 0)
  max score 0

/-- Floor of a rational, computed on the numerator and denominator so that
concrete values reduce. -/
def ratFloor (x : ℚ) : ℤ := x.num / (x.den : ℤ)

/-- Rounding to two decimal places, Python `round(x, 2)` (half-up on the
exact rational value; the source never relies on behaviour at ties). -/
def round2 (x : ℚ) : ℚ := (ratFloor (x * 100 + 1/2) : ℚ) / 100

/-- Combined score, `calculate_confidence_score` (confidence-scoring spec,
section 3.1): the weighted sum of the five sub-scores, with penalties
applied and the result rounded to 2 decimal places. -/
def calculate_confidence_score (person : ExtractedPerson)
    (llm_response : LLMResponse) (obituary_text : String) : ℚ :=
  let final_score :=
    score_name_clarity person * (30/100) +
    score_relationship_clarity_average person * (25/100) +
    score_date_specificity person * (20/100) +
    score_llm_confidence llm_response * (15/100) +
    score_context_quality obituary_text person * (10/100)
  -- Apply penalties (see section 3.2)
  let final_score := apply_penalties final_score person
  -- Round to 2 decimal places
  round2 final_score

/-! ## SSOT write validation (SSOT validation spec, section 4) -/

/-- An attribute value carried inside a conflict or addition record (the
Python pseudocode passes dates, genders and strings uniformly). -/
inductive AttrValue where
  | intVal (n : ℤ)
  | strVal (s : String)
  | genderVal (g : Gender)
deriving DecidableEq, Repr

/-- One detected conflict between extracted and SSOT data. -/
structure Conflict where
  attr : String
  severity : ConflictSeverity
  gramps_value : AttrValue
  extracted_value : AttrValue
deriving DecidableEq, Repr

/-- Categories of non-conflicting additions (`AdditionType`). -/
inductive AdditionType where
  | NEW_ATTRIBUTE
  | NEW_EVENT
  | NEW_RELATIONSHIP
  | SOURCE_CITATION
deriving DecidableEq, Repr

/-- One piece of new information that can be added without conflict. -/
structure Addition where
  attr : String
  value : AttrValue
  addition_type : AdditionType
deriving DecidableEq, Repr

/-- A ranked candidate returned by the Gramps Web matching algorithm. -/
structure GrampsMatch where
  gramps_id : String
  score : ℚ
deriving Repr

/-- Result record of `validate_write_operation`. -/
structure ValidationResult where
  operation_type : OperationType
  requires_approval : Bool
  gramps_candidates : List GrampsMatch
  conflicts : List Conflict
  additions : List Addition := []
deriving Repr

/-- Modelled from the spec: `dates_match_within_tolerance` is called by
`detect_conflicts` but never implemented in the repository; per the spec's
boundary rule a difference of exactly the tolerance still matches
(testable property: 30 days non-conflicting, 31 days conflicting). -/
def dates_match_within_tolerance (d1 d2 tolerance_days : ℤ) : Bool :=
  |d1 - d2| ≤ tolerance_days

/-- Modelled from the spec: `find_matching_relationship` is called by
`detect_conflicts` and `detect_additions` but never implemented in the
repository; per the spec it finds the existing relationship for the same
pair of persons (conflicts are "contradictory relationship type for the
same pair"). -/
def find_matching_relationship (rel : ExtractedRelationship)
    (rels : List GrampsRelationship) : Option GrampsRelationship :=
  rels.find? (fun g => g.person2_name == rel.person2_name)

/-- Function `detect_conflicts` from section 4.2 of the SSOT validation
spec: compares the extracted person with the matched Gramps person and
returns the list of conflicts, in source order.  The unimplemented helper
`names_are_compatible` is passed as a parameter. -/
def detect_conflicts (names_are_compatible : String → String → Bool)
    (extracted : ExtractedPerson) (gramps : GrampsPerson) : List Conflict :=
  -- Birth date conflict
  (match extracted.birth_date, gramps.birth_date with
   | some eb, some gb =>
     if ¬dates_match_within_tolerance eb gb 30 then
       [{ attr := "birth_date", severity := ConflictSeverity.HIGH,
          gramps_value := AttrValue.intVal gb,
          extracted_value := AttrValue.intVal eb }]
     else []
   | _, _ => []) ++
  -- Death date conflict (death dates more precise: tolerance 7)
  (match extracted.death_date, gramps.death_date with
   | some ed, some gd =>
     if ¬dates_match_within_tolerance ed gd 7 then
       [{ attr := "death_date", severity := ConflictSeverity.HIGH,
          gramps_value := AttrValue.intVal gd,
          extracted_value := AttrValue.intVal ed }]
     else []
   | _, _ => []) ++
  -- Gender conflict
  (if extracted.gender ≠ Gender.U ∧ gramps.gender ≠ Gender.U ∧
      extracted.gender ≠ gramps.gender then
     [{ attr := "gender", severity := ConflictSeverity.CRITICAL,
        gramps_value := AttrValue.genderVal gramps.gender,
        extracted_value := AttrValue.genderVal extracted.gender }]
   else []) ++
  -- Name conflict (substantial difference)
  (if ¬names_are_compatible extracted.full_name gramps.full_name then
     [{ attr := "name", severity := ConflictSeverity.HIGH,
        gramps_value := AttrValue.strVal gramps.full_name,
        extracted_value := AttrValue.strVal extracted.full_name }]
   else []) ++
  -- Relationship conflicts (compare with existing relationships)
  extracted.relationships.foldr
    (fun extracted_rel acc =>
      (match find_matching_relationship extracted_rel gramps.relationships with
       | some gramps_rel =>
         if gramps_rel.type ≠ extracted_rel.type then
           [{ attr := "relationship", severity := ConflictSeverity.CRITICAL,
              gramps_value :=
                AttrValue.strVal (gramps_rel.type ++ " to " ++ gramps_rel.person2_name),
              extracted_value :=
                AttrValue.strVal (extracted_rel.type ++ " to " ++ extracted_rel.person2_name) }]
         else []
       | none => []) ++ acc) []

/-- Function `detect_additions` from section 4.3 of the SSOT validation
spec: new information addable without conflict, in source order; a source
citation is always appended last. -/
def detect_additions (extracted : ExtractedPerson) (gramps : GrampsPerson) :
    List Addition :=
  -- Middle name addition
  (if extracted.given_names.isSome ∧ gramps.given_names.isNone then
     [{ attr := "given_names",
        value := AttrValue.strVal (extracted.given_names.getD ""),
        addition_type := AdditionType.NEW_ATTRIBUTE }]
   else []) ++
  -- Maiden name addition
  (if extracted.maiden_name.isSome ∧ gramps.maiden_name.isNone then
     [{ attr := "maiden_name",
        value := AttrValue.strVal (extracted.maiden_name.getD ""),
        addition_type := AdditionType.NEW_ATTRIBUTE }]
   else []) ++
  -- Birth location addition
  (if extracted.birth_location.isSome ∧ gramps.birth_location.isNone then
     [{ attr := "birth_location",
        value := AttrValue.strVal (extracted.birth_location.getD ""),
        addition_type := AdditionType.NEW_ATTRIBUTE }]
   else []) ++
  -- Death location addition
  (if extracted.death_location.isSome ∧ gramps.death_location.isNone then
     [{ attr := "death_location",
        value := AttrValue.strVal (extracted.death_location.getD ""),
        addition_type := AdditionType.NEW_ATTRIBUTE }]
   else []) ++
  -- Residence addition
  (match extracted.residence_location with
   | some r =>
     if ¬gramps.residences.contains r then
       [{ attr := "residence_location", value := AttrValue.strVal r,
          addition_type := AdditionType.NEW_EVENT }]
     else []
   | none => []) ++
  -- New relationship addition
  extracted.relationships.foldr
    (fun extracted_rel acc =>
      (if (find_matching_relationship extracted_rel gramps.relationships).isNone then
         [{ attr := "relationship",
            value :=
              AttrValue.strVal (extracted_rel.type ++ " to " ++ extracted_rel.person2_name),
            addition_type := AdditionType.NEW_RELATIONSHIP }]
       else []) ++ acc) [] ++
  -- Source citation (always an addition)
  [{ attr := "source_citation",
     value := AttrValue.strVal extracted.obituary_url,
     addition_type := AdditionType.SOURCE_CITATION }]

/-- Modelled from the spec: `query_gramps_web_for_matches` is called by
`validate_write_operation` but never implemented in the repository; the
matcher returns the candidates scoring at or above the minimum floor
(default 0.70), ranked by descending score.  The ranked scored candidate
list is the input of the model. -/
def query_gramps_web_for_matches (ranked_candidates : List GrampsMatch) :
    List GrampsMatch :=
  ranked_candidates.filter (fun m => m.score ≥ 70/100)

/-- Modelled from the spec: `is_clear_best_match` is called by
`validate_write_operation` but never implemented in the repository; per
section 2.4 of the SSOT validation spec a match is ambiguous when the score
difference between the top candidates is below 0.15. -/
def is_clear_best_match (candidate_matches : List GrampsMatch) : Bool :=
  match candidate_matches with
  | a :: b :: _ => a.score - b.score ≥ 15/100
  | _ => true

/-- Function `validate_write_operation` from section 4.1 of the SSOT
validation spec: the main validation pipeline.  The external reads
(candidate query and person fetch) and the unimplemented
`names_are_compatible` are passed as parameters. -/
def validate_write_operation (extracted : ExtractedPerson)
    (ranked_candidates : List GrampsMatch)
    (fetch_gramps_person : String → GrampsPerson)
    (names_are_compatible : String → String → Bool)
    (cfg : Config) : ValidationResult :=
  -- Step 1: check for an existing match in Gramps Web
  let gramps_matches := query_gramps_web_for_matches ranked_candidates
  match gramps_matches with
  | [] =>
    -- NEW_ENTITY: no matches found
    { operation_type := OperationType.NEW_ENTITY
      requires_approval :=
        extracted.confidence_score < cfg.confidence_threshold_auto_store
      gramps_candidates := []
      conflicts := [] }
  | best_match :: rest =>
    if rest.length ≥ 1 ∧ ¬is_clear_best_match (best_match :: rest) then
      -- AMBIGUOUS_MATCH: multiple potential matches
      { operation_type := OperationType.AMBIGUOUS_MATCH
        requires_approval := true
        gramps_candidates := best_match :: rest
        conflicts := [] }
    else
      -- Single best match found
      let gramps_person := fetch_gramps_person best_match.gramps_id
      -- Step 2: compare extracted data with Gramps data
      let conflicts := detect_conflicts names_are_compatible extracted gramps_person
      if ¬conflicts.isEmpty then
        -- CONFLICTING_UPDATE: data contradicts Gramps
        { operation_type := OperationType.CONFLICTING_UPDATE
          requires_approval := true
          gramps_candidates := [best_match]
          conflicts := conflicts }
      else
        -- Step 3: check for non-conflicting additions
        let additions := detect_additions extracted gramps_person
        if ¬additions.isEmpty then
          -- NON_CONFLICTING_ADDITION: new data to add
          { operation_type := OperationType.NON_CONFLICTING_ADDITION
            requires_approval :=
              extracted.confidence_score < cfg.confidence_threshold_auto_store
            gramps_candidates := [best_match]
            conflicts := []
            additions := additions }
        else
          -- REDUNDANT: no new information
          { operation_type := OperationType.REDUNDANT
            requires_approval := false
            gramps_candidates := [best_match]
            conflicts := [] }

/-! ## Decomposition of the scorer used to state its algebraic form -/

/-- The weighted sum of the five sub-scores of section 3.1, before
penalties, written as one closed formula. -/
def weightedScoreSum (person : ExtractedPerson) (llm_response : LLMResponse)
    (obituary_text : String) : ℚ :=
  score_name_clarity person * (30/100) +
  score_relationship_clarity_average person * (25/100) +
  score_date_specificity person * (20/100) +
  score_llm_confidence llm_response * (15/100) +
  score_context_quality obituary_text person * (10/100)

/-- The total deduction applied by `apply_penalties`, written additively. -/
def penaltyTotal (person : ExtractedPerson) : ℚ :=
  (if person.surname.isNone ∧ ¬person.is_deceased_primary then 20/100 else 0) +
  (if person.birth_date.isNone ∧ person.death_date.isNone ∧ person.age.isNone
   then 20/100 else 0) +
  (match person.birth_date, person.death_date with
   | some b, some d => if d < b then 30/100 else 0
   | _, _ => 0) +
  (match person.age, person.birth_date, person.death_date with
   | some a, some b, some d =>
     if 2 < |Int.fdiv (d - b) 365 - a| then 20/100 else 0
   | _, _, _ => 0)

/-- The list of deductions `apply_penalties` actually triggers on a person,
one entry per triggered condition, in source order. -/
def code_penalties (person : ExtractedPerson) : List ℚ :=
  (if person.surname.isNone ∧ ¬person.is_deceased_primary then [(20/100 : ℚ)] else []) ++
  (if person.birth_date.isNone ∧ person.death_date.isNone ∧ person.age.isNone
   then [(20/100 : ℚ)] else []) ++
  (match person.birth_date, person.death_date with
   | some b, some d => if d < b then [(30/100 : ℚ)] else []
   | _, _ => []) ++
  (match person.age, person.birth_date, person.death_date with
   | some a, some b, some d =>
     if 2 < |Int.fdiv (d - b) 365 - a| then [(20/100 : ℚ)] else []
   | _, _, _ => [])

/-! ## Claim-side definitions used for refinement comparisons -/

/-- The routing rule exactly as claim C2 words it (following the spec's
section 4.5): AUTO_APPLY exactly when the category is NEW_ENTITY or
NON_CONFLICTING_ADDITION and confidence is at least the auto-store
threshold; REJECT when confidence is below the review threshold and no
plausible candidate exists; REVIEW_REQUIRED in every remaining case. -/
def claimC2_route (match_status : OperationType)
    (has_plausible_candidate : Bool) (confidence_score : ℚ) : Action :=
  if (match_status = OperationType.NEW_ENTITY ∨
      match_status = OperationType.NON_CONFLICTING_ADDITION) ∧
     confidence_score ≥ 85/100 then Action.AUTO_STORE
  else if confidence_score < 60/100 ∧ ¬has_plausible_candidate then Action.REJECT
  else Action.REVIEW_REQUIRED

/-- The deduction list exactly as claim C8 words it (following the spec's
section 4.1): a single −0.20 entry for "missing critical identifying data
(no surname for a non-primary subject, or no dates/age at all)", −0.30 for
death before birth, and −0.20 for age inconsistency.  The claim's pronoun
(−0.10) and thin-source (−0.15) penalties have no trigger readable from the
person record `apply_penalties` receives and never fire. -/
def claimC8_penalties (person : ExtractedPerson) : List ℚ :=
  (if (person.surname.isNone ∧ ¬person.is_deceased_primary) ∨
      (person.birth_date.isNone ∧ person.death_date.isNone ∧ person.age.isNone)
   then [(20/100 : ℚ)] else []) ++
  (match person.birth_date, person.death_date with
   | some b, some d => if d < b then [(30/100 : ℚ)] else []
   | _, _ => []) ++
  (match person.age, person.birth_date, person.death_date with
   | some a, some b, some d =>
     if 2 < |Int.fdiv (d - b) 365 - a| then [(20/100 : ℚ)] else []
   | _, _, _ => [])

/-- The conflicts of the best floor-passing candidate, the quantity the
category precedence of claim C3 is evaluated over (empty when no candidate
passes the floor, since the pipeline never fetches a record then). -/
def best_match_conflicts (extracted : ExtractedPerson)
    (ranked_candidates : List GrampsMatch)
    (fetch_gramps_person : String → GrampsPerson)
    (names_are_compatible : String → String → Bool) : List Conflict :=
  match query_gramps_web_for_matches ranked_candidates with
  | [] => []
  | best :: _ =>
    detect_conflicts names_are_compatible extracted
      (fetch_gramps_person best.gramps_id)

/-- The additions of the best floor-passing candidate, analogous to
`best_match_conflicts`. -/
def best_match_additions (extracted : ExtractedPerson)
    (ranked_candidates : List GrampsMatch)
    (fetch_gramps_person : String → GrampsPerson) : List Addition :=
  match query_gramps_web_for_matches ranked_candidates with
  | [] => []
  | best :: _ => detect_additions extracted (fetch_gramps_person best.gramps_id)

/-- The category evaluation exactly in the precedence order claim C3
states: CRITICAL/HIGH conflicts first, then ambiguity, then additions,
then zero candidates, else REDUNDANT. -/
def claimC3_classify (extracted : ExtractedPerson)
    (ranked_candidates : List GrampsMatch)
    (fetch_gramps_person : String → GrampsPerson)
    (names_are_compatible : String → String → Bool) : OperationType :=
  let gramps_matches := query_gramps_web_for_matches ranked_candidates
  let conflicts := best_match_conflicts extracted ranked_candidates
      fetch_gramps_person names_are_compatible
  let additions := best_match_additions extracted ranked_candidates
      fetch_gramps_person
  if conflicts.any (fun c => c.severity = ConflictSeverity.CRITICAL ∨
      c.severity = ConflictSeverity.HIGH) then
    OperationType.CONFLICTING_UPDATE
  else if gramps_matches.length > 1 ∧ ¬is_clear_best_match gramps_matches then
    OperationType.AMBIGUOUS_MATCH
  else if ¬additions.isEmpty ∧ conflicts.isEmpty then
    OperationType.NON_CONFLICTING_ADDITION
  else if gramps_matches.length = 0 then
    OperationType.NEW_ENTITY
  else OperationType.REDUNDANT

/-- Claim C3's precedence list amended to the order the code evaluates:
zero candidates first, then ambiguity, then conflicts, then additions,
else REDUNDANT (with the conflict test on any conflict, which coincides
with "any CRITICAL/HIGH" because `detect_conflicts` emits only CRITICAL
and HIGH severities). -/
def amendedC3_classify (extracted : ExtractedPerson)
    (ranked_candidates : List GrampsMatch)
    (fetch_gramps_person : String → GrampsPerson)
    (names_are_compatible : String → String → Bool) : OperationType :=
  let gramps_matches := query_gramps_web_for_matches ranked_candidates
  let conflicts := best_match_conflicts extracted ranked_candidates
      fetch_gramps_person names_are_compatible
  let additions := best_match_additions extracted ranked_candidates
      fetch_gramps_person
  if gramps_matches.length = 0 then
    OperationType.NEW_ENTITY
  else if gramps_matches.length > 1 ∧ ¬is_clear_best_match gramps_matches then
    OperationType.AMBIGUOUS_MATCH
  else if conflicts.any (fun c => c.severity = ConflictSeverity.CRITICAL ∨
      c.severity = ConflictSeverity.HIGH) then
    OperationType.CONFLICTING_UPDATE
  else if ¬additions.isEmpty ∧ conflicts.isEmpty then
    OperationType.NON_CONFLICTING_ADDITION
  else OperationType.REDUNDANT

/-! ## Commit engine and external write operations (claim C9)

The external Gramps Web write interface (spec section 6) exposes
createPerson, addAttribute, addCitation, addEvent and createRelationship;
a delete endpoint exists in Gramps Web itself but the engine must never
call it (SSOT validation spec section 2.5).  The state machine below has
one automated transition (the section 7.2 transaction) and one
user-resolution transition (section 3.1); reachability is closed under
both. -/

/-- External record-store calls the engine can issue.  The delete call is
part of the modelled interface precisely so that the never-delete
invariant is not vacuous. -/
inductive GrampsOp where
  | createPerson (person : ExtractedPerson)
  | addAttribute (gramps_id : String) (item : Addition)
  | addEvent (gramps_id : String) (item : Addition)
  | createRelationship (gramps_id : String) (item : Addition)
  | addCitation (gramps_id : String) (url : String)
  | deleteRecord (gramps_id : String)
deriving Repr

/-- Whether an external call is a delete. -/
def GrampsOp.is_delete : GrampsOp → Bool
  | GrampsOp.deleteRecord _ => true
  | _ => false

/-- The external call applying one detected addition (section 2.2: add
attribute, create relationship, add event, add citation). -/
def addition_op (gramps_id : String) (item : Addition) : GrampsOp :=
  match item.addition_type with
  | AdditionType.NEW_ATTRIBUTE => GrampsOp.addAttribute gramps_id item
  | AdditionType.NEW_EVENT => GrampsOp.addEvent gramps_id item
  | AdditionType.NEW_RELATIONSHIP => GrampsOp.createRelationship gramps_id item
  | AdditionType.SOURCE_CITATION =>
    GrampsOp.addCitation gramps_id
      (match item.value with
       | AttrValue.strVal s => s
       | _ => "")

/-- Gramps id of the selected best match of a validation result (empty for
a NEW_ENTITY, whose id only exists after creation). -/
def best_gramps_id (v : ValidationResult) : String :=
  match v.gramps_candidates with
  | [] => ""
  | m :: _ => m.gramps_id

/-- External calls of the automated commit transaction (SSOT validation
spec section 7.2, with the per-category actions of sections 2.1 and 2.2):
nothing is applied when approval is required; a NEW_ENTITY is created and
receives a source citation; a NON_CONFLICTING_ADDITION has each addition
applied.  No category issues a delete. -/
def commit_operations (v : ValidationResult) (e : ExtractedPerson) :
    List GrampsOp :=
  if v.requires_approval then []
  else
    match v.operation_type with
    | OperationType.NEW_ENTITY =>
      [GrampsOp.createPerson e, GrampsOp.addCitation "" e.obituary_url]
    | OperationType.NON_CONFLICTING_ADDITION =>
      v.additions.map (addition_op (best_gramps_id v)) ++
      [GrampsOp.addCitation (best_gramps_id v) e.obituary_url]
    | _ => []

/-- User resolution options on a conflict (section 3.1). -/
inductive ResolutionChoice where
  | KEEP_GRAMPS
  | USE_EXTRACTED
  | MERGE_BOTH
  | MANUAL_EDIT
deriving DecidableEq, Repr

/-- External calls of a user-approved resolution (section 3.1): every
option adds the obituary as a source citation; the modifying options write
through attribute additions (the interface exposes no delete). -/
def resolution_operations (choice : ResolutionChoice) (gramps_id : String)
    (e : ExtractedPerson) (item : Addition) : List GrampsOp :=
  match choice with
  | ResolutionChoice.KEEP_GRAMPS =>
    [GrampsOp.addCitation gramps_id e.obituary_url]
  | ResolutionChoice.USE_EXTRACTED =>
    [GrampsOp.addAttribute gramps_id item,
     GrampsOp.addCitation gramps_id e.obituary_url]
  | ResolutionChoice.MERGE_BOTH =>
    [GrampsOp.addAttribute gramps_id item,
     GrampsOp.addCitation gramps_id e.obituary_url]
  | ResolutionChoice.MANUAL_EDIT =>
    [GrampsOp.addAttribute gramps_id item,
     GrampsOp.addCitation gramps_id e.obituary_url]

/-- Resolution state of a fact in the pipeline. -/
inductive FactStatus where
  | unresolved
  | review_needed
  | committed
  | rejected
deriving DecidableEq, Repr

/-- Pipeline state for one fact: its resolution status and the external
calls issued so far. -/
structure EngineState where
  status : FactStatus
  issued : List GrampsOp

/-- One transition of the commit engine for a fact with validation result
`v`: automated commit (only when no approval is required), routing to
review, automated rejection (no external call), and user-approved
resolution out of review. -/
inductive CommitStep (e : ExtractedPerson) (v : ValidationResult) :
    EngineState → EngineState → Prop where
  | route_auto (issued : List GrampsOp)
      (h : v.requires_approval = false) :
      CommitStep e v ⟨FactStatus.unresolved, issued⟩
        ⟨FactStatus.committed, issued ++ commit_operations v e⟩
  | route_review (issued : List GrampsOp)
      (h : v.requires_approval = true) :
      CommitStep e v ⟨FactStatus.unresolved, issued⟩
        ⟨FactStatus.review_needed, issued⟩
  | route_reject (issued : List GrampsOp) :
      CommitStep e v ⟨FactStatus.unresolved, issued⟩
        ⟨FactStatus.rejected, issued⟩
  | user_resolve (issued : List GrampsOp) (choice : ResolutionChoice)
      (item : Addition) :
      CommitStep e v ⟨FactStatus.review_needed, issued⟩
        ⟨FactStatus.committed,
         issued ++ resolution_operations choice (best_gramps_id v) e item⟩

/-! ## Concrete inputs used in counterexamples and witnesses -/

/-- Totally permissive name-compatibility predicate (no name conflicts). -/
def nc_all : String → String → Bool := fun _ _ => true

/-- An empty extracted-person template; concrete inputs below override the
fields they need. -/
def blankPerson : ExtractedPerson :=
  { full_name := "", given_names := none, surname := none, maiden_name := none,
    age := none, birth_date := none, death_date := none,
    birth_date_circa := false, death_date_circa := false,
    birth_location := none, death_location := none, residence_location := none,
    gender := Gender.U, is_deceased_primary := false, relationships := [],
    confidence_score := 0, obituary_url := "https://example.com/obituary/123" }

/-- An empty Gramps-record template. -/
def blankGramps : GrampsPerson :=
  { full_name := "", given_names := none, maiden_name := none,
    birth_date := none, death_date := none, birth_location := none,
    death_location := none, residences := [], gender := Gender.U,
    relationships := [] }

/-- A well-identified extracted person whose gender contradicts the
candidate record below. -/
def janeExtracted : ExtractedPerson :=
  { blankPerson with
    full_name := "Jane Doe", given_names := some "Jane",
    surname := some "Doe", gender := Gender.F,
    is_deceased_primary := true, confidence_score := 90/100 }

/-- A Gramps record with male gender, conflicting with `janeExtracted`. -/
def grampsMale : GrampsPerson :=
  { blankGramps with full_name := "Jane Doe", gender := Gender.M }

/-- Fetch function returning `grampsMale` for every id. -/
def fetchMale : String → GrampsPerson := fun _ => grampsMale

/-- Fetch function returning the blank record for every id. -/
def fetchBlank : String → GrampsPerson := fun _ => blankGramps

/-- Two candidates scoring 0.80 and 0.78: above the floor and within 0.15
of each other (the ambiguous configuration of SSOT validation spec
section 2.4). -/
def ambiguousCandidates : List GrampsMatch :=
  [{ gramps_id := "I0123", score := 80/100 },
   { gramps_id := "I0456", score := 78/100 }]

/-- A single candidate comfortably above the floor. -/
def singleCandidate : List GrampsMatch :=
  [{ gramps_id := "I0123", score := 90/100 }]

/-- A single candidate below the 0.70 matching floor. -/
def lowCandidates : List GrampsMatch :=
  [{ gramps_id := "I0123", score := 50/100 }]

/-- Scenario A's extractor response: confidence 0.95, no uncertainty
flags. -/
def johnLLM : LLMResponse := { confidence := some (95/100), uncertainty_factors := [] }

/-- Scenario A's fact with only the fields the scenario fixes: subject
name "John Michael Smith Jr.", role deceased_primary, extractor
confidence 0.95, no uncertainty flags — and nothing else. -/
def johnMinimal : ExtractedPerson :=
  { blankPerson with
    full_name := "John Michael Smith Jr.",
    given_names := some "John Michael", surname := some "Smith",
    gender := Gender.M, is_deceased_primary := true,
    confidence_score := 95/100 }

/-- Scenario A's fact completed with exact dates, all three locations and
three explicit possessive-linked relationships. -/
def johnEnriched : ExtractedPerson :=
  { johnMinimal with
    birth_date := some 0, death_date := some 27290,
    birth_location := some "Springfield", death_location := some "Springfield",
    residence_location := some "Springfield",
    relationships :=
      [{ type := "wife", person2_name := "Mary Smith",
         context := "his wife Mary Smith" },
       { type := "son", person2_name := "Robert Smith",
         context := "their son Robert" },
       { type := "daughter", person2_name := "Susan Smith",
         context := "his daughter Susan" }] }

/-- Filler prefix making the scenario obituary exceed 500 words; the base
sentence carries the structured and detail keywords. -/
def fillerWords : Nat → String
  | 0 => "He was born on March 15 1950 and died on December 1 2024 at home. He married Mary and is survived by his son Robert and daughter Susan and was preceded by his parents. He graduated from Springfield High and served in the Army."
  | n + 1 => "w " ++ fillerWords n

/-- Scenario A's obituary text: more than 500 words, all five structured
keywords, two detail keywords. -/
def johnObituaryText : String := fillerWords 500

/-- Extracted person with a birth date 30 days after the record below. -/
def birthBoundary30 : ExtractedPerson := { blankPerson with birth_date := some 30 }

/-- Extracted person with a birth date 31 days after the record below. -/
def birthBoundary31 : ExtractedPerson := { blankPerson with birth_date := some 31 }

/-- Gramps record with birth day number 0. -/
def grampsBirth0 : GrampsPerson := { blankGramps with birth_date := some 0 }

/-- Extracted person with a death date 7 days after the record below. -/
def deathBoundary7 : ExtractedPerson := { blankPerson with death_date := some 7 }

/-- Extracted person with a death date 8 days after the record below. -/
def deathBoundary8 : ExtractedPerson := { blankPerson with death_date := some 8 }

/-- Gramps record with death day number 0. -/
def grampsDeath0 : GrampsPerson := { blankGramps with death_date := some 0 }

/-- A person triggering only the merged missing-critical conditions of
claim C8: no surname, not the primary subject, no dates and no age. -/
def penaltyCaseBoth : ExtractedPerson := blankPerson

/-- Validation result used in the C9 witness trace: a high-confidence
NEW_ENTITY commit. -/
def janeValidation : ValidationResult :=
  validate_write_operation janeExtracted [] fetchBlank nc_all defaultConfig

/-! ## Claims about the resolution router -/

/-- C1: the hard invariant "CONFLICTING_UPDATE or AMBIGUOUS_MATCH always
routes to REVIEW_REQUIRED, never REJECT, at every confidence in [0,1]"
fails on `determine_action`: at the default thresholds, a conflicting or
ambiguous fact with confidence 0.45 (below the review threshold) falls
through to the low-confidence branch and is REJECTed, contradicting the
function's own inline comment ("Conflicts always require review regardless
of confidence") and section 2.3 of the SSOT validation spec ("Always set
match_status='review_needed'"). -/
theorem c1_low_confidence_conflict_is_rejected :
    determine_action defaultConfig (45/100) OperationType.CONFLICTING_UPDATE
      = Action.REJECT ∧
    determine_action defaultConfig (45/100) OperationType.AMBIGUOUS_MATCH
      = Action.REJECT := by
  constructor <;> norm_num [determine_action, defaultConfig]

/-- C2 (counterexample): the claim routes every remaining case — including
a NON_CONFLICTING_ADDITION below the review threshold, which has a
plausible candidate (its matched record) — to REVIEW_REQUIRED, but
`determine_action` REJECTs any fact below the review threshold regardless
of candidate presence. -/
theorem c2_low_confidence_addition_counterexample :
    determine_action defaultConfig (45/100) OperationType.NON_CONFLICTING_ADDITION
      = Action.REJECT ∧
    claimC2_route OperationType.NON_CONFLICTING_ADDITION true (45/100)
      = Action.REVIEW_REQUIRED := by
  constructor
  · norm_num [determine_action, defaultConfig]
  · norm_num [claimC2_route]

/-- C2 (amended): for NEW_ENTITY and NON_CONFLICTING_ADDITION facts with
always_review false and the default thresholds, `determine_action` returns
AUTO_STORE exactly when confidence ≥ 0.85, REJECT whenever confidence is
below 0.60 (regardless of whether a plausible candidate exists), and
REVIEW_REQUIRED in every remaining case. -/
theorem c2_router_thresholds (c : ℚ) (s : OperationType)
    (hs : s = OperationType.NEW_ENTITY ∨
          s = OperationType.NON_CONFLICTING_ADDITION) :
    (determine_action defaultConfig c s = Action.AUTO_STORE ↔ 85/100 ≤ c) ∧
    (c < 60/100 → determine_action defaultConfig c s = Action.REJECT) ∧
    (60/100 ≤ c → c < 85/100 →
      determine_action defaultConfig c s = Action.REVIEW_REQUIRED) := by
  by_cases hc : 85/100 ≤ c
  · have hr : 60/100 ≤ c := le_trans (by norm_num) hc
    simp [determine_action, defaultConfig, hc, hr, hs]
  · by_cases hr : 60/100 ≤ c
    · simp [determine_action, defaultConfig, hc, hr]
    · simp [determine_action, defaultConfig, hc, hr]

/-- Witness for the amended C2 theorem at concrete confidences 0.90, 0.45
and 0.70. -/
theorem c2_router_thresholds_witness :
    determine_action defaultConfig (90/100) OperationType.NEW_ENTITY
      = Action.AUTO_STORE ∧
    determine_action defaultConfig (45/100) OperationType.NEW_ENTITY
      = Action.REJECT ∧
    determine_action defaultConfig (70/100)
      OperationType.NON_CONFLICTING_ADDITION = Action.REVIEW_REQUIRED := by
  refine ⟨?_, ?_, ?_⟩
  · exact (c2_router_thresholds (90/100) _ (Or.inl rfl)).1.mpr (by norm_num)
  · exact (c2_router_thresholds (45/100) _ (Or.inl rfl)).2.1 (by norm_num)
  · exact (c2_router_thresholds (70/100) _ (Or.inr rfl)).2.2 (by norm_num)
      (by norm_num)

/-! ## Helper lemmas on list folds and conflict structure -/

/-- Membership in a fold appending per-element blocks. -/
theorem mem_foldr_append {α β : Type} (f : α → List β) (l : List α) (b : β) :
    (b ∈ l.foldr (fun a acc => f a ++ acc) []) ↔ ∃ a ∈ l, b ∈ f a := by
  induction l with
  | nil => simp
  | cons x xs ih => simp [ih]

/-- Forward characterization of `detect_conflicts`: every conflict it
returns comes from one of the five source blocks, carrying the block's
fixed attribute name and severity. -/
theorem detect_conflicts_cases (nc : String → String → Bool)
    (e : ExtractedPerson) (gp : GrampsPerson) (c : Conflict)
    (hc : c ∈ detect_conflicts nc e gp) :
    (∃ eb gb, e.birth_date = some eb ∧ gp.birth_date = some gb ∧
       ¬dates_match_within_tolerance eb gb 30 = true ∧
       c = { attr := "birth_date", severity := ConflictSeverity.HIGH,
             gramps_value := AttrValue.intVal gb,
             extracted_value := AttrValue.intVal eb }) ∨
    (∃ ed gd, e.death_date = some ed ∧ gp.death_date = some gd ∧
       ¬dates_match_within_tolerance ed gd 7 = true ∧
       c = { attr := "death_date", severity := ConflictSeverity.HIGH,
             gramps_value := AttrValue.intVal gd,
             extracted_value := AttrValue.intVal ed }) ∨
    (e.gender ≠ Gender.U ∧ gp.gender ≠ Gender.U ∧ e.gender ≠ gp.gender ∧
       c = { attr := "gender", severity := ConflictSeverity.CRITICAL,
             gramps_value := AttrValue.genderVal gp.gender,
             extracted_value := AttrValue.genderVal e.gender }) ∨
    (¬nc e.full_name gp.full_name = true ∧
       c = { attr := "name", severity := ConflictSeverity.HIGH,
             gramps_value := AttrValue.strVal gp.full_name,
             extracted_value := AttrValue.strVal e.full_name }) ∨
    (∃ r ∈ e.relationships, ∃ g,
       find_matching_relationship r gp.relationships = some g ∧
       g.type ≠ r.type ∧
       c = { attr := "relationship", severity := ConflictSeverity.CRITICAL,
             gramps_value := AttrValue.strVal (g.type ++ " to " ++ g.person2_name),
             extracted_value := AttrValue.strVal (r.type ++ " to " ++ r.person2_name) }) := by
  unfold detect_conflicts at hc
  simp only [List.mem_append, mem_foldr_append] at hc
  rcases hc with ((((h | h) | h) | h) | ⟨r, hr, h⟩)
  · left
    split at h
    · rename_i eb gb heb hgb
      split at h
      · rename_i htol
        simp only [List.mem_singleton] at h
        exact ⟨eb, gb, heb, hgb, htol, h⟩
      · simp at h
    · simp at h
  · right; left
    split at h
    · rename_i ed gd hed hgd
      split at h
      · rename_i htol
        simp only [List.mem_singleton] at h
        exact ⟨ed, gd, hed, hgd, htol, h⟩
      · simp at h
    · simp at h
  · right; right; left
    split at h
    · rename_i hcond
      simp only [List.mem_singleton] at h
      exact ⟨hcond.1, hcond.2.1, hcond.2.2, h⟩
    · simp at h
  · right; right; right; left
    split at h
    · rename_i hcond
      simp only [List.mem_singleton] at h
      exact ⟨hcond, h⟩
    · simp at h
  · right; right; right; right
    refine ⟨r, hr, ?_⟩
    split at h
    · rename_i g hg
      split at h
      · rename_i hne
        simp only [List.mem_singleton] at h
        exact ⟨g, hg, hne, h⟩
      · simp at h
    · simp at h

/-- Every conflict detected by `detect_conflicts` has severity CRITICAL or
HIGH; the MEDIUM and LOW levels are never emitted. -/
theorem detect_conflicts_severity_high (nc : String → String → Bool)
    (e : ExtractedPerson) (gp : GrampsPerson) (c : Conflict)
    (hc : c ∈ detect_conflicts nc e gp) :
    c.severity = ConflictSeverity.CRITICAL ∨ c.severity = ConflictSeverity.HIGH := by
  rcases detect_conflicts_cases nc e gp c hc with
    ⟨_, _, _, _, _, h⟩ | ⟨_, _, _, _, _, h⟩ | ⟨_, _, _, h⟩ | ⟨_, h⟩ | ⟨_, _, _, _, _, h⟩ <;>
    subst h <;> simp

/-- C3 (counterexample): on a cluster with two floor-passing candidates
0.80 and 0.78 (score difference 0.02 < 0.15) whose best match carries a
CRITICAL gender conflict, the claimed precedence (conflicts before
ambiguity) yields CONFLICTING_UPDATE, but `validate_write_operation`
checks ambiguity first and returns AMBIGUOUS_MATCH. -/
theorem c3_precedence_counterexample :
    (validate_write_operation janeExtracted ambiguousCandidates fetchMale
        nc_all defaultConfig).operation_type = OperationType.AMBIGUOUS_MATCH ∧
    claimC3_classify janeExtracted ambiguousCandidates fetchMale nc_all
      = OperationType.CONFLICTING_UPDATE := by
  have hq : query_gramps_web_for_matches ambiguousCandidates = ambiguousCandidates := by
    simp [query_gramps_web_for_matches, ambiguousCandidates, List.filter]
    norm_num
  have hcon : detect_conflicts nc_all janeExtracted grampsMale =
      [{ attr := "gender", severity := ConflictSeverity.CRITICAL,
         gramps_value := AttrValue.genderVal Gender.M,
         extracted_value := AttrValue.genderVal Gender.F }] := by
    simp [detect_conflicts, janeExtracted, grampsMale, blankPerson, blankGramps, nc_all]
  constructor
  · unfold validate_write_operation
    rw [hq]
    simp [ambiguousCandidates, is_clear_best_match]
    norm_num
  · unfold claimC3_classify best_match_conflicts
    rw [hq]
    simp [ambiguousCandidates, fetchMale, hcon]

/-- C3 (amended): the category `validate_write_operation` returns is the
precedence list re-ordered to the code's evaluation order — zero
candidates, then ambiguity, then conflicts, then additions, else
REDUNDANT — and the conflict test on "any conflict" coincides with "any
CRITICAL/HIGH conflict" because `detect_conflicts` emits only CRITICAL
and HIGH severities (second conjunct). -/
theorem c3_classifier_precedence (e : ExtractedPerson)
    (ranked : List GrampsMatch) (fetch : String → GrampsPerson)
    (nc : String → String → Bool) (cfg : Config) :
    (validate_write_operation e ranked fetch nc cfg).operation_type
      = amendedC3_classify e ranked fetch nc ∧
    (∀ gp c, c ∈ detect_conflicts nc e gp →
      c.severity = ConflictSeverity.CRITICAL ∨
      c.severity = ConflictSeverity.HIGH) := by
  constructor
  · unfold validate_write_operation amendedC3_classify
      best_match_conflicts best_match_additions
    rcases hq : query_gramps_web_for_matches ranked with _ | ⟨best, rest⟩
    · simp
    · simp only [List.length_cons]
      by_cases hamb : rest.length ≥ 1 ∧ ¬(is_clear_best_match (best :: rest) = true)
      · have hlen : rest.length + 1 > 1 := by omega
        simp [hamb, hamb.1, hamb.2, hlen]
      · have hcond : ¬(0 < rest.length ∧ is_clear_best_match (best :: rest) = false) := by
          rintro ⟨h1, h2⟩
          exact hamb ⟨h1, by simp [h2]⟩
        have hcond1 : ¬(1 ≤ rest.length ∧ is_clear_best_match (best :: rest) = false) :=
          hcond
        by_cases hcon : detect_conflicts nc e (fetch best.gramps_id) = []
        · by_cases hadd : detect_additions e (fetch best.gramps_id) = []
          · simp [hcon, hadd, hcond, hcond1]
          · simp [hcon, hadd, List.isEmpty_iff, hcond, hcond1]
        · rcases List.exists_mem_of_ne_nil _ hcon with ⟨c₀, hc₀⟩
          have hP : ∃ x ∈ detect_conflicts nc e (fetch best.gramps_id),
              x.severity = ConflictSeverity.CRITICAL ∨
              x.severity = ConflictSeverity.HIGH :=
            ⟨c₀, hc₀, detect_conflicts_severity_high nc e _ c₀ hc₀⟩
          simp [hcon, List.isEmpty_iff, hcond, hcond1, hP]
  · intro gp c hc
    exact detect_conflicts_severity_high nc e gp c hc

/-- Witness for the amended C3 theorem: the severity conjunct applied to
the concrete gender conflict between `janeExtracted` and `grampsMale`. -/
theorem c3_classifier_precedence_witness :
    ConflictSeverity.CRITICAL = ConflictSeverity.CRITICAL ∨
    ConflictSeverity.CRITICAL = ConflictSeverity.HIGH := by
  have hcon : detect_conflicts nc_all janeExtracted grampsMale =
      [{ attr := "gender", severity := ConflictSeverity.CRITICAL,
         gramps_value := AttrValue.genderVal Gender.M,
         extracted_value := AttrValue.genderVal Gender.F }] := by
    simp [detect_conflicts, janeExtracted, grampsMale, blankPerson, blankGramps, nc_all]
  have := (c3_classifier_precedence janeExtracted ambiguousCandidates fetchMale
      nc_all defaultConfig).2 grampsMale
      { attr := "gender", severity := ConflictSeverity.CRITICAL,
        gramps_value := AttrValue.genderVal Gender.M,
        extracted_value := AttrValue.genderVal Gender.F }
      (by rw [hcon]; exact List.mem_singleton_self _)
  exact this

/-! ## Claims about the SSOT matcher and addition detection -/

/-- C10: `detect_additions` unconditionally appends a source-citation
addition, so it never returns an empty list; consequently the REDUNDANT
branch of `validate_write_operation` is unreachable for every input, and a
single unambiguous floor-passing match with no detected conflicts is
always classified NON_CONFLICTING_ADDITION. -/
theorem c10_redundant_unreachable (e : ExtractedPerson)
    (ranked : List GrampsMatch) (fetch : String → GrampsPerson)
    (nc : String → String → Bool) (cfg : Config) (gp : GrampsPerson) :
    detect_additions e gp ≠ [] ∧
    (validate_write_operation e ranked fetch nc cfg).operation_type
      ≠ OperationType.REDUNDANT ∧
    (∀ best, query_gramps_web_for_matches ranked = [best] →
      detect_conflicts nc e (fetch best.gramps_id) = [] →
      (validate_write_operation e ranked fetch nc cfg).operation_type
        = OperationType.NON_CONFLICTING_ADDITION) := by
  have hadd : ∀ gp' : GrampsPerson, detect_additions e gp' ≠ [] := by
    intro gp' h
    have hlen := congrArg List.length h
    simp [detect_additions, List.length_append] at hlen
  refine ⟨hadd gp, ?_, ?_⟩
  · unfold validate_write_operation
    rcases hq : query_gramps_web_for_matches ranked with _ | ⟨best, rest⟩
    · simp
    · by_cases hamb : 1 ≤ rest.length ∧ is_clear_best_match (best :: rest) = false
      · simp [hamb]
      · by_cases hcon : detect_conflicts nc e (fetch best.gramps_id) = []
        · simp [hamb, hcon, List.isEmpty_iff, hadd (fetch best.gramps_id)]
        · simp [hamb, hcon, List.isEmpty_iff]
  · intro best hq hcon
    unfold validate_write_operation
    rw [hq]
    simp [hcon, List.isEmpty_iff, hadd (fetch best.gramps_id)]

/-- Witness for C10: a blank extracted person against a single clean
candidate is classified NON_CONFLICTING_ADDITION. -/
theorem c10_redundant_unreachable_witness :
    (validate_write_operation blankPerson singleCandidate fetchBlank nc_all
        defaultConfig).operation_type
      = OperationType.NON_CONFLICTING_ADDITION := by
  apply (c10_redundant_unreachable blankPerson singleCandidate fetchBlank
      nc_all defaultConfig blankGramps).2.2
      { gramps_id := "I0123", score := 90/100 }
  · simp [query_gramps_web_for_matches, singleCandidate, List.filter]
    norm_num
  · simp [detect_conflicts, blankPerson, blankGramps, fetchBlank, nc_all]

/-- C4: over the ranked candidate list, with query filtering at the 0.70
floor — no candidate at the floor gives NEW_ENTITY; exactly one
floor-passing candidate with margin at least 0.15 over every other
candidate is selected as the single best match (validation proceeds on it
and the result is neither NEW_ENTITY nor AMBIGUOUS_MATCH); two or more
floor-passing candidates whose top scores differ by less than 0.15 give
AMBIGUOUS_MATCH. -/
theorem c4_matcher_thresholds (e : ExtractedPerson)
    (ranked : List GrampsMatch) (fetch : String → GrampsPerson)
    (nc : String → String → Bool) (cfg : Config) :
    ((∀ m ∈ ranked, m.score < 70/100) →
      (validate_write_operation e ranked fetch nc cfg).operation_type
        = OperationType.NEW_ENTITY) ∧
    (∀ best, query_gramps_web_for_matches ranked = [best] →
      (∀ m ∈ ranked, m ≠ best → best.score - m.score ≥ 15/100) →
      (validate_write_operation e ranked fetch nc cfg).gramps_candidates
        = [best] ∧
      (validate_write_operation e ranked fetch nc cfg).operation_type
        ≠ OperationType.NEW_ENTITY ∧
      (validate_write_operation e ranked fetch nc cfg).operation_type
        ≠ OperationType.AMBIGUOUS_MATCH) ∧
    (∀ a b rest2, query_gramps_web_for_matches ranked = a :: b :: rest2 →
      a.score - b.score < 15/100 →
      (validate_write_operation e ranked fetch nc cfg).operation_type
        = OperationType.AMBIGUOUS_MATCH) := by
  refine ⟨?_, ?_, ?_⟩
  · intro hlow
    have hq : query_gramps_web_for_matches ranked = [] := by
      unfold query_gramps_web_for_matches
      rw [List.filter_eq_nil_iff]
      intro m hm
      simpa using not_le.mpr (hlow m hm)
    unfold validate_write_operation
    rw [hq]
  · intro best hq hmargin
    unfold validate_write_operation
    rw [hq]
    by_cases hcon : detect_conflicts nc e (fetch best.gramps_id) = []
    · by_cases hadd : detect_additions e (fetch best.gramps_id) = []
      · simp [hcon, hadd, List.isEmpty_iff]
      · simp [hcon, hadd, List.isEmpty_iff]
    · simp [hcon, List.isEmpty_iff]
  · intro a b rest2 hq hdiff
    unfold validate_write_operation
    rw [hq]
    simp [is_clear_best_match, not_le.mpr hdiff]

/-- Witness for C4: the three matcher configurations at concrete inputs —
one below-floor candidate (NEW_ENTITY), one clean single candidate
(selected as best match), and the 0.80/0.78 pair (AMBIGUOUS_MATCH). -/
theorem c4_matcher_thresholds_witness :
    (validate_write_operation blankPerson lowCandidates fetchBlank nc_all
        defaultConfig).operation_type = OperationType.NEW_ENTITY ∧
    (validate_write_operation blankPerson singleCandidate fetchBlank nc_all
        defaultConfig).gramps_candidates
      = [{ gramps_id := "I0123", score := 90/100 }] ∧
    (validate_write_operation janeExtracted ambiguousCandidates fetchMale
        nc_all defaultConfig).operation_type
      = OperationType.AMBIGUOUS_MATCH := by
  refine ⟨?_, ?_, ?_⟩
  · apply (c4_matcher_thresholds blankPerson lowCandidates fetchBlank nc_all
        defaultConfig).1
    intro m hm
    simp [lowCandidates] at hm
    rw [hm]
    norm_num
  · refine ((c4_matcher_thresholds blankPerson singleCandidate fetchBlank
        nc_all defaultConfig).2.1
        { gramps_id := "I0123", score := 90/100 } ?_ ?_).1
    · simp [query_gramps_web_for_matches, singleCandidate, List.filter]
      norm_num
    · intro m hm hne
      simp [singleCandidate] at hm
      exact absurd hm hne
  · apply (c4_matcher_thresholds janeExtracted ambiguousCandidates fetchMale
        nc_all defaultConfig).2.2
        { gramps_id := "I0123", score := 80/100 }
        { gramps_id := "I0456", score := 78/100 } []
    · simp [query_gramps_web_for_matches, ambiguousCandidates, List.filter]
      norm_num
    · norm_num

/-! ## Claim about date-conflict boundaries -/

/-- C5: for non-null dates, `detect_conflicts` reports no birth-date
conflict at an absolute difference of exactly 30 days and a HIGH
birth-date conflict at 31 days; the same boundary holds for death dates at
7 versus 8 days; and no date conflict is reported when either side's date
is null. -/
theorem c5_date_tolerance_boundaries (nc : String → String → Bool)
    (e : ExtractedPerson) (gp : GrampsPerson) :
    (∀ eb gb, e.birth_date = some eb → gp.birth_date = some gb →
      |eb - gb| = 30 →
      (detect_conflicts nc e gp).any (fun c => c.attr == "birth_date")
        = false) ∧
    (∀ eb gb, e.birth_date = some eb → gp.birth_date = some gb →
      |eb - gb| = 31 →
      ({ attr := "birth_date", severity := ConflictSeverity.HIGH,
         gramps_value := AttrValue.intVal gb,
         extracted_value := AttrValue.intVal eb } : Conflict)
        ∈ detect_conflicts nc e gp) ∧
    (∀ ed gd, e.death_date = some ed → gp.death_date = some gd →
      |ed - gd| = 7 →
      (detect_conflicts nc e gp).any (fun c => c.attr == "death_date")
        = false) ∧
    (∀ ed gd, e.death_date = some ed → gp.death_date = some gd →
      |ed - gd| = 8 →
      ({ attr := "death_date", severity := ConflictSeverity.HIGH,
         gramps_value := AttrValue.intVal gd,
         extracted_value := AttrValue.intVal ed } : Conflict)
        ∈ detect_conflicts nc e gp) ∧
    (e.birth_date = none ∨ gp.birth_date = none →
      (detect_conflicts nc e gp).any (fun c => c.attr == "birth_date")
        = false) ∧
    (e.death_date = none ∨ gp.death_date = none →
      (detect_conflicts nc e gp).any (fun c => c.attr == "death_date")
        = false) := by
  refine ⟨?_, ?_, ?_, ?_, ?_, ?_⟩
  · intro eb gb heb hgb h30
    rw [List.any_eq_false]
    intro c hc
    rcases detect_conflicts_cases nc e gp c hc with
      ⟨eb', gb', heb', hgb', htol', rfl⟩ | ⟨_, _, _, _, _, rfl⟩ |
      ⟨_, _, _, rfl⟩ | ⟨_, rfl⟩ | ⟨_, _, _, _, _, rfl⟩
    · injection heb.symm.trans heb' with h1
      injection hgb.symm.trans hgb' with h2
      subst h1; subst h2
      exact absurd (by simp [dates_match_within_tolerance, h30]) htol'
    · simp
    · simp
    · simp
    · simp
  · intro eb gb heb hgb h31
    unfold detect_conflicts
    rw [heb, hgb]
    have htol : ¬dates_match_within_tolerance eb gb 30 = true := by
      simp [dates_match_within_tolerance, h31]
    simp [htol, List.mem_append]
  · intro ed gd hed hgd h7
    rw [List.any_eq_false]
    intro c hc
    rcases detect_conflicts_cases nc e gp c hc with
      ⟨_, _, _, _, _, rfl⟩ | ⟨ed', gd', hed', hgd', htol', rfl⟩ |
      ⟨_, _, _, rfl⟩ | ⟨_, rfl⟩ | ⟨_, _, _, _, _, rfl⟩
    · simp
    · injection hed.symm.trans hed' with h1
      injection hgd.symm.trans hgd' with h2
      subst h1; subst h2
      exact absurd (by simp [dates_match_within_tolerance, h7]) htol'
    · simp
    · simp
    · simp
  · intro ed gd hed hgd h8
    unfold detect_conflicts
    rw [hed, hgd]
    have htol : ¬dates_match_within_tolerance ed gd 7 = true := by
      simp [dates_match_within_tolerance, h8]
    simp [htol, List.mem_append]
  · intro hnone
    rw [List.any_eq_false]
    intro c hc
    rcases detect_conflicts_cases nc e gp c hc with
      ⟨eb', gb', heb', hgb', htol', rfl⟩ | ⟨_, _, _, _, _, rfl⟩ |
      ⟨_, _, _, rfl⟩ | ⟨_, rfl⟩ | ⟨_, _, _, _, _, rfl⟩
    · rcases hnone with h | h
      · rw [h] at heb'; exact absurd heb' (by simp)
      · rw [h] at hgb'; exact absurd hgb' (by simp)
    · simp
    · simp
    · simp
    · simp
  · intro hnone
    rw [List.any_eq_false]
    intro c hc
    rcases detect_conflicts_cases nc e gp c hc with
      ⟨_, _, _, _, _, rfl⟩ | ⟨ed', gd', hed', hgd', htol', rfl⟩ |
      ⟨_, _, _, rfl⟩ | ⟨_, rfl⟩ | ⟨_, _, _, _, _, rfl⟩
    · simp
    · rcases hnone with h | h
      · rw [h] at hed'; exact absurd hed' (by simp)
      · rw [h] at hgd'; exact absurd hgd' (by simp)
    · simp
    · simp
    · simp

/-- Witness for C5 at concrete day numbers: 30 versus 31 for birth, 7
versus 8 for death, against records with day number 0. -/
theorem c5_date_tolerance_boundaries_witness :
    (detect_conflicts nc_all birthBoundary30 grampsBirth0).any
      (fun c => c.attr == "birth_date") = false ∧
    ({ attr := "birth_date", severity := ConflictSeverity.HIGH,
       gramps_value := AttrValue.intVal 0,
       extracted_value := AttrValue.intVal 31 } : Conflict)
      ∈ detect_conflicts nc_all birthBoundary31 grampsBirth0 ∧
    (detect_conflicts nc_all deathBoundary7 grampsDeath0).any
      (fun c => c.attr == "death_date") = false ∧
    ({ attr := "death_date", severity := ConflictSeverity.HIGH,
       gramps_value := AttrValue.intVal 0,
       extracted_value := AttrValue.intVal 8 } : Conflict)
      ∈ detect_conflicts nc_all deathBoundary8 grampsDeath0 := by
  refine ⟨?_, ?_, ?_, ?_⟩
  · exact (c5_date_tolerance_boundaries nc_all birthBoundary30 grampsBirth0).1
      30 0 rfl rfl (by norm_num)
  · exact (c5_date_tolerance_boundaries nc_all birthBoundary31 grampsBirth0).2.1
      31 0 rfl rfl (by norm_num)
  · exact (c5_date_tolerance_boundaries nc_all deathBoundary7 grampsDeath0).2.2.1
      7 0 rfl rfl (by norm_num)
  · exact (c5_date_tolerance_boundaries nc_all deathBoundary8 grampsDeath0).2.2.2.1
      8 0 rfl rfl (by norm_num)

/-! ## Claims about the penalty algebra -/

/-- Applying the penalties sequentially with one final floor equals a
single subtraction of the additive total. -/
theorem apply_penalties_eq (score : ℚ) (p : ExtractedPerson) :
    apply_penalties score p = max (score - penaltyTotal p) 0 := by
  unfold apply_penalties penaltyTotal
  have h : ∀ x y : ℚ, x = y → x ⊔ 0 = y ⊔ 0 := fun x y hxy => by rw [hxy]
  apply h
  ring

/-- Sum of the triggered-deduction list equals the additive total. -/
theorem code_penalties_sum (p : ExtractedPerson) :
    (code_penalties p).sum = penaltyTotal p := by
  unfold code_penalties penaltyTotal
  rcases p.birth_date with _ | b <;> rcases p.death_date with _ | d <;>
    rcases p.age with _ | a <;> split_ifs <;>
    simp_all [apply_ite List.sum] <;> ring

/-- C8 (counterexample): the claim's penalty list carries a single −0.20
"missing critical data" deduction covering both the missing-surname and
the no-dates conditions, but `apply_penalties` subtracts −0.20 for each of
the two conditions separately: on a non-primary person with no surname, no
dates and no age, a pre-penalty score of 1.0 becomes 0.80 under the
claim's list and 0.60 under the code. -/
theorem c8_penalty_merge_counterexample :
    max (1 - (claimC8_penalties penaltyCaseBoth).sum) 0 = 80/100 ∧
    apply_penalties 1 penaltyCaseBoth = 60/100 := by
  constructor
  · norm_num [claimC8_penalties, penaltyCaseBoth, blankPerson]
  · norm_num [apply_penalties, penaltyCaseBoth, blankPerson]

/-- C8 (amended): penalty application is order-insensitive over the
deductions the code actually triggers — no-surname-non-primary −0.20,
no-dates-no-age −0.20 (these two stack), death-before-birth −0.30 and age
inconsistency −0.20: subtracting them in any order and flooring once at
0.0 at the end equals `apply_penalties`. -/
theorem c8_penalties_order_insensitive (score : ℚ) (p : ExtractedPerson)
    (l : List ℚ) (hl : l.Perm (code_penalties p)) :
    max (score - l.sum) 0 = apply_penalties score p := by
  rw [hl.sum_eq, code_penalties_sum, apply_penalties_eq]

/-- Witness for amended C8: the reversed triggered list of the double
missing-critical person at score 1.0. -/
theorem c8_penalties_order_insensitive_witness :
    max (1 - ((code_penalties penaltyCaseBoth).reverse).sum) 0
      = apply_penalties 1 penaltyCaseBoth :=
  c8_penalties_order_insensitive 1 penaltyCaseBoth _ (List.reverse_perm _)

/-! ## Claims about the combined confidence score -/

/-- Name clarity stays in [0,1]. -/
theorem score_name_clarity_bounds (p : ExtractedPerson) :
    0 ≤ score_name_clarity p ∧ score_name_clarity p ≤ 1 := by
  unfold score_name_clarity
  refine ⟨le_min ?_ (by norm_num), min_le_right _ _⟩
  repeat' apply add_nonneg
  all_goals repeat' split
  all_goals norm_num

/-- Relationship clarity stays in [0,1]. -/
theorem score_relationship_clarity_bounds (t ctx : String) :
    0 ≤ score_relationship_clarity t ctx ∧
    score_relationship_clarity t ctx ≤ 1 := by
  unfold score_relationship_clarity
  split_ifs <;> constructor <;> simp only [le_min_iff] <;> split_ifs <;> norm_num

/-- The averaged relationship clarity stays in [0,1]. -/
theorem score_relationship_clarity_average_bounds (p : ExtractedPerson) :
    0 ≤ score_relationship_clarity_average p ∧
    score_relationship_clarity_average p ≤ 1 := by
  unfold score_relationship_clarity_average
  rcases p.relationships with _ | ⟨r, rs⟩
  · norm_num
  · have hlen : (0:ℚ) < ((r :: rs).length : ℚ) := by
      exact_mod_cast Nat.succ_pos rs.length
    constructor
    · apply div_nonneg _ (le_of_lt hlen)
      apply List.sum_nonneg
      intro x hx
      simp only [List.mem_map] at hx
      rcases hx with ⟨r', _, rfl⟩
      exact (score_relationship_clarity_bounds r'.type r'.context).1
    · rw [div_le_one hlen]
      have hb : ((r :: rs).map
          (fun r => score_relationship_clarity r.type r.context)).sum ≤
          ((r :: rs).map
            (fun r => score_relationship_clarity r.type r.context)).length
            • (1:ℚ) := by
        apply List.sum_le_card_nsmul
        intro x hx
        simp only [List.mem_map] at hx
        rcases hx with ⟨r', _, rfl⟩
        exact (score_relationship_clarity_bounds r'.type r'.context).2
      simpa [nsmul_eq_mul] using hb

/-- Date specificity stays in [0,1]. -/
theorem score_date_specificity_bounds (p : ExtractedPerson) :
    0 ≤ score_date_specificity p ∧ score_date_specificity p ≤ 1 := by
  unfold score_date_specificity
  refine ⟨le_min ?_ (by norm_num), min_le_right _ _⟩
  split_ifs <;> norm_num

/-- The extractor-confidence factor stays in [0,1] for a well-typed
extractor confidence. -/
theorem score_llm_confidence_bounds (llm : LLMResponse)
    (hc : ∀ c, llm.confidence = some c → 0 ≤ c ∧ c ≤ 1) :
    0 ≤ score_llm_confidence llm ∧ score_llm_confidence llm ≤ 1 := by
  unfold score_llm_confidence
  rcases hx : llm.confidence with _ | c
  · rcases llm.uncertainty_factors with _ | ⟨f, fs⟩
    · norm_num
    · have hlen : (0:ℚ) ≤ ((fs.length : ℚ) + 1) * (15/100) := by positivity
      have hcast : ((f :: fs).length : ℚ) = (fs.length : ℚ) + 1 := by simp
      refine ⟨le_max_left _ _, max_le (by norm_num) ?_⟩
      rw [hcast]
      linarith
  · exact hc c hx

/-- Context quality stays in [0,1]. -/
theorem score_context_quality_bounds (text : String) (p : ExtractedPerson) :
    0 ≤ score_context_quality text p ∧ score_context_quality text p ≤ 1 := by
  unfold score_context_quality
  refine ⟨le_min ?_ (by norm_num), min_le_right _ _⟩
  split_ifs <;> norm_num

/-- The total penalty deduction is nonnegative. -/
theorem penaltyTotal_nonneg (p : ExtractedPerson) : 0 ≤ penaltyTotal p := by
  unfold penaltyTotal
  repeat' apply add_nonneg
  all_goals repeat' split
  all_goals norm_num

/-- The weighted sum of the five factors stays in [0,1]. -/
theorem weightedScoreSum_bounds (p : ExtractedPerson) (llm : LLMResponse)
    (text : String) (hc : ∀ c, llm.confidence = some c → 0 ≤ c ∧ c ≤ 1) :
    0 ≤ weightedScoreSum p llm text ∧ weightedScoreSum p llm text ≤ 1 := by
  obtain ⟨a0, a1⟩ := score_name_clarity_bounds p
  obtain ⟨b0, b1⟩ := score_relationship_clarity_average_bounds p
  obtain ⟨c0, c1⟩ := score_date_specificity_bounds p
  obtain ⟨d0, d1⟩ := score_llm_confidence_bounds llm hc
  obtain ⟨e0, e1⟩ := score_context_quality_bounds text p
  unfold weightedScoreSum
  constructor <;> nlinarith

/-- The floor used by the embedding agrees with the mathematical floor. -/
theorem ratFloor_eq_floor (x : ℚ) : ratFloor x = ⌊x⌋ := by
  rw [Rat.floor_def]; rfl

/-- Rounding to two decimals preserves the unit interval. -/
theorem round2_bounds (x : ℚ) (h0 : 0 ≤ x) (h1 : x ≤ 1) :
    0 ≤ round2 x ∧ round2 x ≤ 1 := by
  unfold round2
  rw [ratFloor_eq_floor]
  constructor
  · apply div_nonneg _ (by norm_num)
    have hz : (0:ℤ) ≤ ⌊x * 100 + 1/2⌋ := by
      apply Int.le_floor.mpr
      push_cast
      linarith
    exact_mod_cast hz
  · rw [div_le_one (by norm_num)]
    have hz : ⌊x * 100 + 1/2⌋ ≤ 100 := by
      have hle : x * 100 + 1/2 ≤ 201/2 := by linarith
      calc ⌊x * 100 + 1/2⌋ ≤ ⌊(201:ℚ)/2⌋ := Int.floor_le_floor hle
        _ = 100 := by norm_num
    exact_mod_cast hz

/-- C6: the combined confidence score always lies in [0,1]; it equals the
weighted sum of the five sub-scores minus the penalty deductions, floored
once at 0.0 and rounded to two decimal places; and the scorer is pure —
two evaluations on identical inputs are definitionally the same value.
The hypothesis types the extractor-reported confidence into [0,1] (the
extraction interface's contract). -/
theorem c6_score_range_and_form (p : ExtractedPerson) (llm : LLMResponse)
    (text : String) (hc : ∀ c, llm.confidence = some c → 0 ≤ c ∧ c ≤ 1) :
    0 ≤ calculate_confidence_score p llm text ∧
    calculate_confidence_score p llm text ≤ 1 ∧
    calculate_confidence_score p llm text
      = round2 (max (weightedScoreSum p llm text - penaltyTotal p) 0) ∧
    calculate_confidence_score p llm text
      = calculate_confidence_score p llm text := by
  have hw := weightedScoreSum_bounds p llm text hc
  have heq : calculate_confidence_score p llm text
      = round2 (max (weightedScoreSum p llm text - penaltyTotal p) 0) := by
    unfold calculate_confidence_score weightedScoreSum
    simp only [apply_penalties_eq]
  have hpt := penaltyTotal_nonneg p
  have hin0 : 0 ≤ max (weightedScoreSum p llm text - penaltyTotal p) 0 :=
    le_max_right _ _
  have hin1 : max (weightedScoreSum p llm text - penaltyTotal p) 0 ≤ 1 :=
    max_le (by linarith [hw.2]) (by norm_num)
  obtain ⟨r0, r1⟩ := round2_bounds _ hin0 hin1
  refine ⟨?_, ?_, heq, rfl⟩
  · rw [heq]; exact r0
  · rw [heq]; exact r1

/-- Witness for C6 at the Scenario A minimal fact and its extractor
response (confidence 0.95). -/
theorem c6_score_range_and_form_witness :
    0 ≤ calculate_confidence_score johnMinimal johnLLM "" ∧
    calculate_confidence_score johnMinimal johnLLM "" ≤ 1 := by
  have h := c6_score_range_and_form johnMinimal johnLLM ""
    (fun c hceq => by
      simp only [johnLLM, Option.some.injEq] at hceq
      rw [← hceq]
      norm_num)
  exact ⟨h.1, h.2.1⟩

/-! ## Claim C7: Scenario A -/

/-- Name clarity of "John Michael Smith Jr." with given names
"John Michael" and surname "Smith": 0.50 + 0.15 (middle) + 0.05 (suffix)
= 0.70 — not the 1.0 the source document's own example table asserts. -/
theorem score_name_clarity_johnMinimal :
    score_name_clarity johnMinimal = 70/100 := by
  have ht : has_title "John Michael Smith Jr." = false := by decide
  have hn : has_nickname "John Michael Smith Jr." = false := by decide
  have hs : has_suffix "John Michael Smith Jr." = true := by decide
  have hsp : ' ' ∈ trimChars
      ['J', 'o', 'h', 'n', ' ', 'M', 'i', 'c', 'h', 'a', 'e', 'l'] := by decide
  simp [score_name_clarity, johnMinimal, blankPerson, ht, hn, hs, hsp]
  norm_num

/-- Scenario A minimal fact: the scorer returns 0.15. -/
theorem calculate_confidence_johnMinimal :
    calculate_confidence_score johnMinimal johnLLM "" = 15/100 := by
  have havg : score_relationship_clarity_average johnMinimal = 0 := by
    simp [score_relationship_clarity_average, johnMinimal, blankPerson]
  have hdate : score_date_specificity johnMinimal = 0 := by
    simp [score_date_specificity, johnMinimal, blankPerson]
  have hllm : score_llm_confidence johnLLM = 95/100 := rfl
  have hwc : wordCount "" = 0 := by decide
  have hst : (structured_keywords.filter
      (fun kw => strContains (strLower "") kw)).length = 0 := by decide
  have hdt : (detail_keywords.filter
      (fun kw => strContains (strLower "") kw)).length = 0 := by decide
  have hctx : score_context_quality "" johnMinimal = 0 := by
    simp [score_context_quality, johnMinimal, blankPerson, hwc, hst, hdt]
  have hpen : penaltyTotal johnMinimal = 20/100 := by
    simp [penaltyTotal, johnMinimal, blankPerson]
  rw [calculate_confidence_score]
  rw [apply_penalties_eq]
  rw [score_name_clarity_johnMinimal, havg, hdate, hllm, hctx, hpen]
  norm_num [round2, ratFloor]

/-- C7 (counterexample): the fact carrying exactly the properties Scenario
A lists — name "John Michael Smith Jr.", role deceased_primary, zero SSOT
candidates, extractor confidence 0.95, no uncertainty flags — and nothing
else scores 0.15, far below 0.85, and the router REJECTs it instead of
AUTO_APPLYing; only the zero-candidate ⇒ NEW_ENTITY part of the claim
holds. -/
theorem c7_scenarioA_counterexample :
    calculate_confidence_score johnMinimal johnLLM "" = 15/100 ∧
    ¬(85/100 ≤ calculate_confidence_score johnMinimal johnLLM "") ∧
    (validate_write_operation
        { johnMinimal with confidence_score := 15/100 } [] fetchBlank nc_all
        defaultConfig).operation_type = OperationType.NEW_ENTITY ∧
    determine_action defaultConfig
        (calculate_confidence_score johnMinimal johnLLM "")
        OperationType.NEW_ENTITY = Action.REJECT := by
  refine ⟨calculate_confidence_johnMinimal, ?_, ?_, ?_⟩
  · rw [calculate_confidence_johnMinimal]
    norm_num
  · rfl
  · rw [calculate_confidence_johnMinimal]
    norm_num [determine_action, defaultConfig]

/-- Relationship clarity of the three explicit relationships of the
enriched Scenario A fact is 1.0 each. -/
theorem johnEnriched_relationship_clarity :
    score_relationship_clarity "wife" "his wife Mary Smith" = 1 ∧
    score_relationship_clarity "son" "their son Robert" = 1 ∧
    score_relationship_clarity "daughter" "his daughter Susan" = 1 := by
  refine ⟨?_, ?_, ?_⟩
  · have c1 : (explicit_terms.any fun t => strContains (strLower "wife") t)
        = true := by decide
    have c2 : (possessive_patterns.any fun p =>
        strContains (strLower "his wife Mary Smith") p) = true := by decide
    simp [score_relationship_clarity, c1, c2]
    norm_num
  · have c1 : (explicit_terms.any fun t => strContains (strLower "son") t)
        = true := by decide
    have c2 : (possessive_patterns.any fun p =>
        strContains (strLower "their son Robert") p) = true := by decide
    simp [score_relationship_clarity, c1, c2]
    norm_num
  · have c1 : (explicit_terms.any fun t => strContains (strLower "daughter") t)
        = true := by decide
    have c2 : (possessive_patterns.any fun p =>
        strContains (strLower "his daughter Susan") p) = false := by decide
    simp [score_relationship_clarity, c1, c2]

/-- Scenario A enriched fact: the scorer returns exactly 0.90. -/
theorem calculate_confidence_johnEnriched :
    calculate_confidence_score johnEnriched johnLLM johnObituaryText
      = 90/100 := by
  have hname : score_name_clarity johnEnriched = 70/100 := by
    have ht : has_title "John Michael Smith Jr." = false := by decide
    have hn : has_nickname "John Michael Smith Jr." = false := by decide
    have hs : has_suffix "John Michael Smith Jr." = true := by decide
    have hsp : ' ' ∈ trimChars
        ['J', 'o', 'h', 'n', ' ', 'M', 'i', 'c', 'h', 'a', 'e', 'l'] := by decide
    simp [score_name_clarity, johnEnriched, johnMinimal, blankPerson,
      ht, hn, hs, hsp]
    norm_num
  have havg : score_relationship_clarity_average johnEnriched = 1 := by
    obtain ⟨h1, h2, h3⟩ := johnEnriched_relationship_clarity
    simp [score_relationship_clarity_average, johnEnriched, johnMinimal,
      blankPerson, h1, h2, h3]
    norm_num
  have hdate : score_date_specificity johnEnriched = 1 := by
    simp [score_date_specificity, johnEnriched, johnMinimal, blankPerson]
    norm_num
  have hllm : score_llm_confidence johnLLM = 95/100 := rfl
  have hwc : 500 < wordCount johnObituaryText := by decide
  have hst : (structured_keywords.filter
      (fun kw => strContains (strLower johnObituaryText) kw)).length = 5 := by
    decide
  have hdt : (detail_keywords.filter
      (fun kw => strContains (strLower johnObituaryText) kw)).length = 2 := by
    decide
  have hctx : score_context_quality johnObituaryText johnEnriched = 1 := by
    simp [score_context_quality, johnEnriched, johnMinimal, blankPerson,
      hwc, hst, hdt]
    norm_num
  have hpen : penaltyTotal johnEnriched = 0 := by
    simp [penaltyTotal, johnEnriched, johnMinimal, blankPerson]
  rw [calculate_confidence_score]
  rw [apply_penalties_eq]
  rw [hname, havg, hdate, hllm, hctx, hpen]
  norm_num [round2, ratFloor]

/-- C7 (amended): Scenario A's conclusion holds once the fact is completed
with exact birth and death dates, all three locations, three explicit
relationships, and a structured obituary context of more than 500 words:
the score is 0.90 ≥ 0.85, the zero-candidate classification is NEW_ENTITY,
and the router AUTO_STOREs it. -/
theorem c7_scenarioA_amended :
    calculate_confidence_score johnEnriched johnLLM johnObituaryText
      = 90/100 ∧
    85/100 ≤ calculate_confidence_score johnEnriched johnLLM johnObituaryText ∧
    (validate_write_operation
        { johnEnriched with confidence_score := 90/100 } [] fetchBlank nc_all
        defaultConfig).operation_type = OperationType.NEW_ENTITY ∧
    determine_action defaultConfig
        (calculate_confidence_score johnEnriched johnLLM johnObituaryText)
        OperationType.NEW_ENTITY = Action.AUTO_STORE := by
  refine ⟨calculate_confidence_johnEnriched, ?_, ?_, ?_⟩
  · rw [calculate_confidence_johnEnriched]
    norm_num
  · rfl
  · rw [calculate_confidence_johnEnriched]
    norm_num [determine_action, defaultConfig]

/-! ## Claim C9: the never-delete invariant of the commit engine -/

/-- Applying an addition issues an add/create call, never a delete. -/
theorem addition_op_not_delete (gramps_id : String) (a : Addition) :
    (addition_op gramps_id a).is_delete = false := by
  unfold addition_op
  split <;> rfl

/-- The automated commit transaction issues no delete call. -/
theorem commit_operations_no_delete (v : ValidationResult)
    (e : ExtractedPerson) :
    ∀ op ∈ commit_operations v e, op.is_delete = false := by
  intro op hop
  unfold commit_operations at hop
  split at hop
  · simp at hop
  · split at hop
    · simp at hop
      rcases hop with rfl | rfl <;> rfl
    · simp only [List.mem_append, List.mem_map, List.mem_singleton] at hop
      rcases hop with ⟨a, _, rfl⟩ | rfl
      · exact addition_op_not_delete _ a
      · rfl
    · simp at hop

/-- Every user-resolution option issues only citation and attribute
writes, never a delete call. -/
theorem resolution_operations_no_delete (choice : ResolutionChoice)
    (gramps_id : String) (e : ExtractedPerson) (item : Addition) :
    ∀ op ∈ resolution_operations choice gramps_id e item,
      op.is_delete = false := by
  intro op hop
  cases choice <;> simp [resolution_operations] at hop <;>
    rcases hop with rfl | rfl <;> rfl

/-- C9: in every state reachable from the initial state by the commit
engine's transitions — automated commit, routing to review, automated
rejection, and user-approved resolution — no issued external call is a
delete; the automated transitions in particular never delete, and neither
does any resolution option. -/
theorem c9_never_delete (e : ExtractedPerson) (v : ValidationResult)
    (s : EngineState)
    (h : Relation.ReflTransGen (CommitStep e v)
        ⟨FactStatus.unresolved, []⟩ s) :
    ∀ op ∈ s.issued, op.is_delete = false := by
  induction h with
  | refl => intro op hop; simp at hop
  | tail hsteps hstep ih =>
    cases hstep with
    | route_auto issued hreq =>
      intro op hop
      simp only [List.mem_append] at hop
      rcases hop with h1 | h1
      · exact ih op h1
      · exact commit_operations_no_delete v e op h1
    | route_review issued hreq => exact ih
    | route_reject issued => exact ih
    | user_resolve issued choice item =>
      intro op hop
      simp only [List.mem_append] at hop
      rcases hop with h1 | h1
      · exact ih op h1
      · exact resolution_operations_no_delete choice (best_gramps_id v) e
          item op h1

/-- Witness for C9: the one-step trace that auto-commits the
high-confidence NEW_ENTITY `janeExtracted` issues only non-delete calls. -/
theorem c9_never_delete_witness :
    (([] ++ commit_operations janeValidation janeExtracted).all
      (fun op => !op.is_delete)) = true := by
  have hreq : janeValidation.requires_approval = false := by
    simp [janeValidation, validate_write_operation,
      query_gramps_web_for_matches, janeExtracted, blankPerson, defaultConfig]
    norm_num
  have h := c9_never_delete janeExtracted janeValidation
    ⟨FactStatus.committed, [] ++ commit_operations janeValidation janeExtracted⟩
    (Relation.ReflTransGen.single (CommitStep.route_auto [] hreq))
  rw [List.all_eq_true]
  intro op hop
  simp [h op hop]

end Genealogy
